import Mathlib

/-!
Shallow embedding of the gdsii_to_gerber converter (src/main.rs).

The program flattens a GDSII library (named structures holding boundary
polygons, text elements and translated structure references) into a flat
list of polygon regions for one layer, and emits the result as a Gerber
command stream with a fixed 6.6 coordinate format in millimeters.

Modelling choices:
* machine integers (i16 layers, i32 coordinates) are `Int`; the claims do
  not concern overflow;
* the unbounded Rust recursion of `Pattern::from_gds_struct` is given a
  fuel parameter: `none` models non-termination (fuel exhausted);
* a recoverable `Err(PatternError)` and a panic (`unimplemented!`) are
  distinguished by the `FlatResult` type below;
* the f64 scale arithmetic of `coord_from_gds` is modelled with exact
  rationals, and the external gerber-types fixed-point conversion is
  modelled from the spec (see `CoordinateNumber.tryFromRat`).
-/

/-- A raw GDSII vertex (gds21 `GdsPoint`). -/
structure GdsPoint where
  x : Int
  y : Int
deriving DecidableEq

/-- The program's own point type (`struct Point { x: i32, y: i32 }`). -/
structure Point where
  x : Int
  y : Int
deriving DecidableEq

instance : Inhabited Point := ⟨⟨0, 0⟩⟩

/-- `impl Add for Point`: componentwise addition. -/
instance : Add Point := ⟨fun a b => ⟨a.x + b.x, a.y + b.y⟩⟩

/-- `impl From<&GdsPoint> for Point`. -/
def Point.ofGds (p : GdsPoint) : Point := ⟨p.x, p.y⟩

/-- gds21 `GdsBoundary` (the fields the program reads, plus datatype). -/
structure GdsBoundary where
  layer : Int
  datatype : Int
  xy : List GdsPoint
deriving DecidableEq

/-- gds21 `GdsStrans`: transform attributes carried by references.
The program never reads these; float-valued fields are modelled as `Rat`. -/
structure GdsStrans where
  reflected : Bool
  abs_mag : Bool
  abs_angle : Bool
  mag : Option Rat
  angle : Option Rat
deriving DecidableEq

/-- gds21 `GdsStructRef`: a reference by name with a translation offset,
plus ignored transform attributes. -/
structure GdsStructRef where
  name : String
  xy : GdsPoint
  strans : Option GdsStrans
deriving DecidableEq

/-- gds21 `GdsTextElem` (ignored by the program). -/
structure GdsTextElem where
  string : String
  layer : Int
  xy : GdsPoint
deriving DecidableEq

/-- gds21 `GdsPath` (hits the `unimplemented!` branch). -/
structure GdsPath where
  layer : Int
  xy : List GdsPoint
deriving DecidableEq

/-- gds21 `GdsNode` (hits the `unimplemented!` branch). -/
structure GdsNode where
  layer : Int
  xy : List GdsPoint
deriving DecidableEq

/-- gds21 `GdsBox` (hits the `unimplemented!` branch). -/
structure GdsBox where
  layer : Int
  xy : List GdsPoint
deriving DecidableEq

/-- gds21 `GdsArrayRef` (hits the `unimplemented!` branch). -/
structure GdsArrayRef where
  name : String
  xy : List GdsPoint
  strans : Option GdsStrans
deriving DecidableEq

/-- gds21 `GdsElement`: the tagged element variant. -/
inductive GdsElement where
  | boundary : GdsBoundary → GdsElement
  | path : GdsPath → GdsElement
  | structRef : GdsStructRef → GdsElement
  | arrayRef : GdsArrayRef → GdsElement
  | textElem : GdsTextElem → GdsElement
  | node : GdsNode → GdsElement
  | boxElem : GdsBox → GdsElement
deriving DecidableEq

/-- gds21 `GdsStruct`: a named structure with an ordered element list. -/
structure GdsStruct where
  name : String
  elems : List GdsElement
deriving DecidableEq

/-- gds21 `GdsUnits`: user unit and database unit (meters per step),
modelled as exact rationals. -/
structure GdsUnits where
  user_unit : Rat
  db_unit_m : Rat
deriving DecidableEq

/-- gds21 `GdsUnits::db_unit()`. -/
def GdsUnits.db_unit (u : GdsUnits) : Rat := u.db_unit_m

/-- gds21 `GdsLibrary`: named structures plus the unit scale. -/
structure GdsLibrary where
  name : String
  units : GdsUnits
  structs : List GdsStruct
deriving DecidableEq

/-- `struct Region(Vec<Point>)`: one polygon outline. -/
structure Region where
  points : List Point
deriving DecidableEq

/-- `struct Pattern(Vec<Region>)`: the flattening result. -/
structure Pattern where
  regions : List Region
deriving DecidableEq

/-- `impl AddAssign<Point> for Region`: translate every point. -/
def Region.translate (r : Region) (d : Point) : Region := ⟨r.points.map (· + d)⟩

/-- `impl Add<Point> for Pattern`: translate every region. -/
instance : HAdd Pattern Point Pattern := ⟨fun pat d => ⟨pat.regions.map (·.translate d)⟩⟩

/-- `b.xy.iter().collect()`: a boundary's vertex list becomes one Region
verbatim (via `From<&GdsPoint> for Point`). -/
def regionOfBoundary (b : GdsBoundary) : Region := ⟨b.xy.map Point.ofGds⟩

/-- `enum PatternError`. -/
inductive PatternError where
  | patternDoesNotExist
deriving DecidableEq

/-- A Rust `PatternResult` outcome, distinguishing the recoverable
`Err(PatternError)` from the fatal `unimplemented!` panic. -/
inductive FlatResult (α : Type) where
  | ok : α → FlatResult α
  | err : PatternError → FlatResult α
  | fatal : FlatResult α
deriving DecidableEq

def FlatResult.map {α β : Type} (g : α → β) : FlatResult α → FlatResult β
  | .ok a => .ok (g a)
  | .err e => .err e
  | .fatal => .fatal

/-- The element loop of `Pattern::from_gds_struct`: processes the element
list in order, accumulating regions.  `rec` is the recursive flattening
call used for structure references (it already fixes library, layer and
fuel).  `none` propagates fuel exhaustion (non-termination). -/
def flattenElems (rec : String → Option (FlatResult Pattern)) (layer : Int) :
    List GdsElement → Option (FlatResult (List Region))
  | [] => some (.ok [])
  | e :: rest =>
    match e with
    | .boundary b =>
      if b.layer = layer then
        (flattenElems rec layer rest).map (FlatResult.map (fun rs => regionOfBoundary b :: rs))
      else
        flattenElems rec layer rest
    | .structRef sr =>
      match rec sr.name with
      | none => none
      | some (.err pe) => some (.err pe)
      | some .fatal => some .fatal
      | some (.ok pat) =>
        (flattenElems rec layer rest).map
          (FlatResult.map (fun rs => (pat + Point.ofGds sr.xy).regions ++ rs))
    | .textElem _ => flattenElems rec layer rest
    | .path _ => some .fatal
    | .arrayRef _ => some .fatal
    | .node _ => some .fatal
    | .boxElem _ => some .fatal

/-- `Pattern::from_gds_struct(lib, name, layer)` with an explicit fuel
bound on recursion depth; `none` means the fuel ran out, modelling the
unbounded recursion of the Rust original. -/
def Pattern.fromGdsStruct (lib : GdsLibrary) (layer : Int) :
    Nat → String → Option (FlatResult Pattern)
  | 0, _ => none
  | f + 1, name =>
    match lib.structs.find? (fun s => s.name == name) with
    | none => some (.err .patternDoesNotExist)
    | some s =>
      (flattenElems (fun n => Pattern.fromGdsStruct lib layer f n) layer s.elems).map
        (FlatResult.map Pattern.mk)

/-- Modelled from the spec: the external gerber-types conversion
`CoordinateNumber::try_from(f64)` under the 6 integer / 6 fractional digit
coordinate format.  The millimeter value is scaled by 10^6; the conversion
succeeds exactly when the scaled value is an integer (no fractional
residue) that fits in 6 integer digits, and fails hard otherwise — never
truncating or rounding. -/
def CoordinateNumber.tryFromRat (millis : Rat) : Option Int :=
  if (millis * 1000000).den = 1 ∧ (millis * 1000000).num.natAbs < 10 ^ 12 then
    some (millis * 1000000).num
  else none

/-- `fn coord_from_gds(v, lib)`: database units → meters → millimeters →
fixed point.  `none` models the `unwrap` panic on conversion failure. -/
def coord_from_gds (v : Int) (lib : GdsLibrary) : Option Int :=
  CoordinateNumber.tryFromRat ((v : Rat) * lib.units.db_unit * 1000)

/-- One serialized Gerber command, abstracting the gerber-types
serialization in `Pattern::write_gerber`. -/
inductive GerberCmd where
  | coordinateFormat : Nat → Nat → GerberCmd
  | unitMillimeters : GerberCmd
  | regionMode : Bool → GerberCmd
  | move : Int → Int → GerberCmd
  | interpolate : Int → Int → GerberCmd
  | endOfFile : GerberCmd
deriving DecidableEq

/-- Both coordinates of a point through `coord_from_gds`. -/
def coordPair (lib : GdsLibrary) (p : Point) : Option (Int × Int) :=
  match coord_from_gds p.x lib, coord_from_gds p.y lib with
  | some cx, some cy => some (cx, cy)
  | _, _ => none

/-- The per-region body of `Pattern::write_gerber`: a move to the first
point (`region.0[0]`, `none` models the index panic on an empty region)
followed by an interpolate for every point including the first. -/
def Region.gerberCmds (lib : GdsLibrary) (r : Region) : Option (List GerberCmd) :=
  match r.points with
  | [] => none
  | p0 :: _ =>
    match coordPair lib p0,
        r.points.mapM (fun p => (coordPair lib p).map (fun c => GerberCmd.interpolate c.1 c.2)) with
    | some c0, some interps => some (GerberCmd.move c0.1 c0.2 :: interps)
    | _, _ => none

/-- `Pattern::write_gerber`: header, region bodies in order, trailer. -/
def Pattern.write_gerber (pat : Pattern) (lib : GdsLibrary) : Option (List GerberCmd) :=
  match pat.regions.mapM (Region.gerberCmds lib) with
  | none => none
  | some bodies =>
    some ([.coordinateFormat 6 6, .unitMillimeters, .regionMode true]
      ++ bodies.flatten ++ [.regionMode false, .endOfFile])

/-- Similarity of structure references: same name and offset, transform
attributes (`strans`) free. -/
def simSR (a b : GdsStructRef) : Bool := a.name == b.name && a.xy == b.xy

/-- Similarity of elements: equal, except structure references which may
differ in their transform attributes. -/
def simElem : GdsElement → GdsElement → Bool
  | .structRef a, .structRef b => simSR a b
  | .boundary a, .boundary b => a == b
  | .textElem a, .textElem b => a == b
  | .path a, .path b => a == b
  | .arrayRef a, .arrayRef b => a == b
  | .node a, .node b => a == b
  | .boxElem a, .boxElem b => a == b
  | _, _ => false

def simElems : List GdsElement → List GdsElement → Bool
  | [], [] => true
  | a :: as, b :: bs => simElem a b && simElems as bs
  | _, _ => false

def simStruct (a b : GdsStruct) : Bool := a.name == b.name && simElems a.elems b.elems

def simStructList : List GdsStruct → List GdsStruct → Bool
  | [], [] => true
  | a :: as, b :: bs => simStruct a b && simStructList as bs
  | _, _ => false

/-- Two libraries identical except for structure-reference transform
attributes. -/
def simLib (l1 l2 : GdsLibrary) : Bool :=
  l1.name == l2.name && l1.units == l2.units && simStructList l1.structs l2.structs

/-- The structure-reference edge relation of a library: structure `n`
(as found by the flattener's name lookup) holds a reference to `m`. -/
def Refs (lib : GdsLibrary) (n m : String) : Prop :=
  ∃ s, lib.structs.find? (fun t => t.name == n) = some s ∧
    ∃ sr, GdsElement.structRef sr ∈ s.elems ∧ sr.name = m

/-! ### Concrete inputs used by witnesses -/

/-- Witness units: user unit 1e-3, database unit 1e-6 meters per step. -/
def wUnits : GdsUnits := ⟨1/1000, 1/1000000⟩

/-- Witness boundary: a unit square (in 1000-step units) on layer 1. -/
def wBoundaryA : GdsBoundary := ⟨1, 0, [⟨0, 0⟩, ⟨1000, 0⟩, ⟨1000, 1000⟩, ⟨0, 1000⟩]⟩

/-- Witness structure holding only `wBoundaryA`. -/
def wStructA : GdsStruct := ⟨"A", [.boundary wBoundaryA]⟩

/-- Witness structure referencing `"A"` at offset (2000, 0). -/
def wStructB : GdsStruct := ⟨"B", [.structRef ⟨"A", ⟨2000, 0⟩, none⟩]⟩

/-- Witness library with structures `"A"` and `"B"`. -/
def wLib : GdsLibrary := ⟨"w", wUnits, [wStructA, wStructB]⟩

/-- Decidable form of "every boundary has a non-empty vertex list". -/
def boundaryNonempty : GdsElement → Bool
  | .boundary b => !b.xy.isEmpty
  | _ => true

/-- Same as `wLib` except the reference carries transform attributes. -/
def wLibStrans : GdsLibrary :=
  ⟨"w", wUnits,
    [wStructA, ⟨"B", [.structRef ⟨"A", ⟨2000, 0⟩, some ⟨true, false, false, some 2, some 90⟩⟩]⟩]⟩

/-- A library with a self-referential structure: a reference cycle. -/
def cycLib : GdsLibrary := ⟨"c", wUnits, [⟨"A", [.structRef ⟨"A", ⟨0, 0⟩, none⟩]⟩]⟩

/-! ### Basic lemmas about the flattener -/

theorem flattenElems_nil (rec : String → Option (FlatResult Pattern)) (layer : Int) :
    flattenElems rec layer [] = some (.ok []) := rfl

theorem flattenElems_boundary_hit (rec : String → Option (FlatResult Pattern)) (layer : Int)
    (b : GdsBoundary) (rest : List GdsElement) (h : b.layer = layer) :
    flattenElems rec layer (.boundary b :: rest) =
      (flattenElems rec layer rest).map
        (FlatResult.map (fun rs => regionOfBoundary b :: rs)) := by
  simp [flattenElems, h]

theorem flattenElems_boundary_miss (rec : String → Option (FlatResult Pattern)) (layer : Int)
    (b : GdsBoundary) (rest : List GdsElement) (h : b.layer ≠ layer) :
    flattenElems rec layer (.boundary b :: rest) = flattenElems rec layer rest := by
  simp [flattenElems, h]

theorem flattenElems_text (rec : String → Option (FlatResult Pattern)) (layer : Int)
    (t : GdsTextElem) (rest : List GdsElement) :
    flattenElems rec layer (.textElem t :: rest) = flattenElems rec layer rest := by
  simp [flattenElems]

theorem flattenElems_ref_ok (rec : String → Option (FlatResult Pattern)) (layer : Int)
    (sr : GdsStructRef) (rest : List GdsElement) (pat : Pattern)
    (h : rec sr.name = some (.ok pat)) :
    flattenElems rec layer (.structRef sr :: rest) =
      (flattenElems rec layer rest).map
        (FlatResult.map (fun rs => (pat + Point.ofGds sr.xy).regions ++ rs)) := by
  simp [flattenElems, h]

theorem flattenElems_ref_err (rec : String → Option (FlatResult Pattern)) (layer : Int)
    (sr : GdsStructRef) (rest : List GdsElement) (pe : PatternError)
    (h : rec sr.name = some (.err pe)) :
    flattenElems rec layer (.structRef sr :: rest) = some (.err pe) := by
  simp [flattenElems, h]

/-- Splitting the element loop at an append, when the front succeeds. -/
theorem flattenElems_append (rec : String → Option (FlatResult Pattern)) (layer : Int)
    (xs ys : List GdsElement) (rs : List Region)
    (h : flattenElems rec layer xs = some (.ok rs)) :
    flattenElems rec layer (xs ++ ys) =
      (flattenElems rec layer ys).map (FlatResult.map (fun ts => rs ++ ts)) := by
  induction xs generalizing rs with
  | nil =>
    simp [flattenElems] at h
    cases h
    cases hy : flattenElems rec layer ys with
    | none => simp [hy]
    | some v => cases v <;> simp [hy, FlatResult.map]
  | cons e rest ih =>
    cases e with
    | boundary b =>
      by_cases hb : b.layer = layer
      · rw [flattenElems_boundary_hit _ _ _ _ hb] at h
        cases hrest : flattenElems rec layer rest with
        | none => rw [hrest] at h; simp at h
        | some v =>
          rw [hrest] at h
          cases v with
          | ok rs0 =>
            simp [FlatResult.map] at h
            rw [List.cons_append, flattenElems_boundary_hit _ _ _ _ hb, ih rs0 hrest]
            cases hy : flattenElems rec layer ys with
            | none => simp
            | some w => cases w <;> simp [FlatResult.map, ← h]
          | err pe => simp [FlatResult.map] at h
          | fatal => simp [FlatResult.map] at h
      · rw [flattenElems_boundary_miss _ _ _ _ hb] at h
        rw [List.cons_append, flattenElems_boundary_miss _ _ _ _ hb]
        exact ih rs h
    | structRef sr =>
      cases hr : rec sr.name with
      | none => simp [flattenElems, hr] at h
      | some v =>
        cases v with
        | ok pat =>
          rw [flattenElems_ref_ok _ _ _ _ _ hr] at h
          cases hrest : flattenElems rec layer rest with
          | none => rw [hrest] at h; simp at h
          | some w =>
            rw [hrest] at h
            cases w with
            | ok rs0 =>
              simp [FlatResult.map] at h
              rw [List.cons_append, flattenElems_ref_ok _ _ _ _ _ hr, ih rs0 hrest]
              cases hy : flattenElems rec layer ys with
              | none => simp
              | some w2 => cases w2 <;> simp [FlatResult.map, ← h]
            | err pe => simp [FlatResult.map] at h
            | fatal => simp [FlatResult.map] at h
        | err pe => rw [flattenElems_ref_err _ _ _ _ _ hr] at h; simp at h
        | fatal => simp [flattenElems, hr] at h
    | textElem t =>
      rw [flattenElems_text] at h
      rw [List.cons_append, flattenElems_text]
      exact ih rs h
    | path p => simp [flattenElems] at h
    | arrayRef a => simp [flattenElems] at h
    | node n => simp [flattenElems] at h
    | boxElem bx => simp [flattenElems] at h

/-! ### Translation algebra -/

theorem Point.add_def (a b : Point) : a + b = ⟨a.x + b.x, a.y + b.y⟩ := rfl

theorem Pattern.add_regions (pat : Pattern) (d : Point) :
    (pat + d).regions = pat.regions.map (fun r => Region.mk (r.points.map (· + d))) := rfl

theorem Point.add_assoc (a b c : Point) : a + b + c = a + (b + c) := by
  simp [Point.add_def, Int.add_assoc]

theorem Region.translate_translate (r : Region) (d1 d2 : Point) :
    (r.translate d1).translate d2 = r.translate (d1 + d2) := by
  simp [Region.translate, Function.comp_def, Point.add_assoc]

theorem Pattern.add_add (pat : Pattern) (d1 d2 : Point) :
    pat + d1 + d2 = pat + (d1 + d2) := by
  show Pattern.mk _ = Pattern.mk _
  simp [Pattern.add_regions, Region.translate, Function.comp_def, Point.add_assoc]

/-! ### Boundary-only structures -/

/-- The element loop on a list of boundaries that all sit on the
requested layer: one region per boundary, vertices verbatim. -/
theorem flattenElems_boundaries (rec : String → Option (FlatResult Pattern)) (layer : Int)
    (bs : List GdsBoundary) (hall : ∀ b ∈ bs, b.layer = layer) :
    flattenElems rec layer (bs.map GdsElement.boundary) =
      some (.ok (bs.map regionOfBoundary)) := by
  induction bs with
  | nil => simp [flattenElems]
  | cons b rest ih =>
    have hb : b.layer = layer := hall b (by simp)
    have hrest := ih (fun x hx => hall x (by simp [hx]))
    simp only [List.map_cons]
    rw [flattenElems_boundary_hit _ _ _ _ hb, hrest]
    simp [FlatResult.map]

/-! ### Emitter helpers -/

theorem list_mapM_eq_map {α β : Type} (g : α → Option β) (h : α → β) :
    ∀ l : List α, (∀ x ∈ l, g x = some (h x)) → l.mapM g = some (l.map h) := by
  intro l
  induction l with
  | nil => intro _; rfl
  | cons a rest ih =>
    intro hl
    have ha : g a = some (h a) := hl a (by simp)
    have hr := ih (fun x hx => hl x (by simp [hx]))
    rw [List.mapM_cons, ha, hr]
    rfl

theorem Region.gerberCmds_eq (lib : GdsLibrary) (r : Region) (p0 : Point) (tl : List Point)
    (hp : r.points = p0 :: tl) (cf : Point → Int × Int)
    (hc : ∀ p ∈ r.points, coordPair lib p = some (cf p)) :
    Region.gerberCmds lib r =
      some (GerberCmd.move (cf p0).1 (cf p0).2 ::
        r.points.map (fun p => GerberCmd.interpolate (cf p).1 (cf p).2)) := by
  have h0 : coordPair lib p0 = some (cf p0) := hc p0 (by simp [hp])
  have hm : r.points.mapM (fun p => (coordPair lib p).map
      (fun c => GerberCmd.interpolate c.1 c.2)) =
      some (r.points.map (fun p => GerberCmd.interpolate (cf p).1 (cf p).2)) := by
    apply list_mapM_eq_map
    intro p hpin
    rw [hc p hpin]
    rfl
  rw [Region.gerberCmds, hp]
  rw [hp] at hm
  simp only [hm, h0]

/-- The full emission of a pattern whose regions are non-empty and whose
coordinates all convert, described by a coordinate assignment `cf`. -/
theorem Pattern.write_gerber_eq (pat : Pattern) (lib : GdsLibrary) (cf : Point → Int × Int)
    (hne : ∀ r ∈ pat.regions, r.points ≠ [])
    (hc : ∀ r ∈ pat.regions, ∀ p ∈ r.points, coordPair lib p = some (cf p)) :
    pat.write_gerber lib =
      some ([.coordinateFormat 6 6, .unitMillimeters, .regionMode true]
        ++ (pat.regions.map (fun r =>
              GerberCmd.move (cf r.points.headI).1 (cf r.points.headI).2 ::
                r.points.map (fun p => GerberCmd.interpolate (cf p).1 (cf p).2))).flatten
        ++ [.regionMode false, .endOfFile]) := by
  have hbodies : pat.regions.mapM (Region.gerberCmds lib) =
      some (pat.regions.map (fun r =>
        GerberCmd.move (cf r.points.headI).1 (cf r.points.headI).2 ::
          r.points.map (fun p => GerberCmd.interpolate (cf p).1 (cf p).2))) := by
    apply list_mapM_eq_map
    intro r hr
    obtain ⟨p0, tl, hp⟩ : ∃ p0 tl, r.points = p0 :: tl := by
      cases hpts : r.points with
      | nil => exact absurd hpts (hne r hr)
      | cons a b => exact ⟨a, b, rfl⟩
    rw [Region.gerberCmds_eq lib r p0 tl hp cf (hc r hr)]
    simp [hp]
  rw [Pattern.write_gerber, hbodies]

/-! ### Fuel monotonicity -/

theorem flattenElems_mono (rec1 rec2 : String → Option (FlatResult Pattern))
    (hrec : ∀ n r, rec1 n = some r → rec2 n = some r) (layer : Int) :
    ∀ es x, flattenElems rec1 layer es = some x → flattenElems rec2 layer es = some x := by
  intro es
  induction es with
  | nil => intro x h; exact h
  | cons e rest ih =>
    intro x h
    cases e with
    | boundary b =>
      by_cases hb : b.layer = layer
      · rw [flattenElems_boundary_hit _ _ _ _ hb] at h ⊢
        obtain ⟨y, hy, hxy⟩ := Option.map_eq_some'.mp h
        rw [ih y hy]
        simp [hxy]
      · rw [flattenElems_boundary_miss _ _ _ _ hb] at h ⊢
        exact ih x h
    | structRef sr =>
      cases hr : rec1 sr.name with
      | none => simp [flattenElems, hr] at h
      | some v =>
        have hr2 := hrec _ _ hr
        cases v with
        | ok pat =>
          rw [flattenElems_ref_ok _ _ _ _ _ hr] at h
          rw [flattenElems_ref_ok _ _ _ _ _ hr2]
          obtain ⟨y, hy, hxy⟩ := Option.map_eq_some'.mp h
          rw [ih y hy]
          simp [hxy]
        | err pe =>
          rw [flattenElems_ref_err _ _ _ _ _ hr] at h
          rw [flattenElems_ref_err _ _ _ _ _ hr2]
          exact h
        | fatal =>
          simp only [flattenElems, hr] at h
          simp only [flattenElems, hr2]
          exact h
    | textElem t =>
      rw [flattenElems_text] at h ⊢
      exact ih x h
    | path p => simpa [flattenElems] using h
    | arrayRef a => simpa [flattenElems] using h
    | node n => simpa [flattenElems] using h
    | boxElem bx => simpa [flattenElems] using h

theorem fromGdsStruct_mono (lib : GdsLibrary) (layer : Int) :
    ∀ f f', f ≤ f' → ∀ name r,
      Pattern.fromGdsStruct lib layer f name = some r →
      Pattern.fromGdsStruct lib layer f' name = some r := by
  intro f
  induction f with
  | zero => intro f' _ name r h; simp [Pattern.fromGdsStruct] at h
  | succ f ih =>
    intro f' hle name r h
    obtain ⟨f'', rfl⟩ : ∃ f'', f' = f'' + 1 := by
      cases f' with
      | zero => omega
      | succ k => exact ⟨k, rfl⟩
    have hff : f ≤ f'' := by omega
    cases hfind : lib.structs.find? (fun s => s.name == name) with
    | none =>
      simp only [Pattern.fromGdsStruct, hfind] at h ⊢
      exact h
    | some s =>
      simp only [Pattern.fromGdsStruct, hfind] at h ⊢
      obtain ⟨y, hy, hxy⟩ := Option.map_eq_some'.mp h
      have hy2 := flattenElems_mono _ _ (fun n r0 => ih f'' hff n r0) layer s.elems y hy
      exact Option.map_eq_some'.mpr ⟨y, hy2, hxy⟩

/-! ### Non-empty regions -/

theorem Region.translate_ne_nil (r : Region) (d : Point) (h : r.points ≠ []) :
    (r.translate d).points ≠ [] := by
  simp [Region.translate]
  intro hc
  exact h hc

theorem flattenElems_nonempty (rec : String → Option (FlatResult Pattern))
    (hrec : ∀ n pat, rec n = some (.ok pat) → ∀ r ∈ pat.regions, r.points ≠ [])
    (layer : Int) :
    ∀ es, (∀ e ∈ es, ∀ b, e = GdsElement.boundary b → b.xy ≠ []) →
      ∀ rs, flattenElems rec layer es = some (.ok rs) → ∀ r ∈ rs, r.points ≠ [] := by
  intro es
  induction es with
  | nil =>
    intro _ rs h r hr
    simp [flattenElems] at h
    subst h
    simp at hr
  | cons e rest ih =>
    intro hes rs h r hr
    have hrest : ∀ e ∈ rest, ∀ b, e = GdsElement.boundary b → b.xy ≠ [] :=
      fun x hx => hes x (by simp [hx])
    cases e with
    | boundary b =>
      by_cases hb : b.layer = layer
      · rw [flattenElems_boundary_hit _ _ _ _ hb] at h
        obtain ⟨y, hy, hxy⟩ := Option.map_eq_some'.mp h
        cases y with
        | ok rs0 =>
          simp [FlatResult.map] at hxy
          subst hxy
          rcases List.mem_cons.mp hr with hr0 | hr1
          · subst hr0
            have hxy0 : b.xy ≠ [] := hes _ (by simp) b rfl
            simp [regionOfBoundary]
            intro hc
            exact hxy0 hc
          · exact ih hrest rs0 hy r hr1
        | err pe => simp [FlatResult.map] at hxy
        | fatal => simp [FlatResult.map] at hxy
      · rw [flattenElems_boundary_miss _ _ _ _ hb] at h
        exact ih hrest rs h r hr
    | structRef sr =>
      cases hrc : rec sr.name with
      | none => simp [flattenElems, hrc] at h
      | some v =>
        cases v with
        | ok pat =>
          rw [flattenElems_ref_ok _ _ _ _ _ hrc] at h
          obtain ⟨y, hy, hxy⟩ := Option.map_eq_some'.mp h
          cases y with
          | ok rs0 =>
            simp [FlatResult.map] at hxy
            subst hxy
            rcases List.mem_append.mp hr with hr0 | hr1
            · rw [Pattern.add_regions] at hr0
              obtain ⟨r0, hr0mem, hr0eq⟩ := List.mem_map.mp hr0
              subst hr0eq
              exact Region.translate_ne_nil r0 _ (hrec _ _ hrc r0 hr0mem)
            · exact ih hrest rs0 hy r hr1
          | err pe => simp [FlatResult.map] at hxy
          | fatal => simp [FlatResult.map] at hxy
        | err pe => rw [flattenElems_ref_err _ _ _ _ _ hrc] at h; simp at h
        | fatal => simp [flattenElems, hrc] at h
    | textElem t =>
      rw [flattenElems_text] at h
      exact ih hrest rs h r hr
    | path p => simp [flattenElems] at h
    | arrayRef a => simp [flattenElems] at h
    | node n => simp [flattenElems] at h
    | boxElem bx => simp [flattenElems] at h

/-- Flattening never produces an empty region when every boundary in the
library has a non-empty vertex list. -/
theorem fromGdsStruct_nonempty (lib : GdsLibrary) (layer : Int)
    (hb : ∀ s ∈ lib.structs, ∀ e ∈ s.elems, ∀ b, e = GdsElement.boundary b → b.xy ≠ []) :
    ∀ f name pat, Pattern.fromGdsStruct lib layer f name = some (.ok pat) →
      ∀ r ∈ pat.regions, r.points ≠ [] := by
  intro f
  induction f with
  | zero => intro name pat h; simp [Pattern.fromGdsStruct] at h
  | succ f ih =>
    intro name pat h
    cases hfind : lib.structs.find? (fun s => s.name == name) with
    | none =>
      simp only [Pattern.fromGdsStruct, hfind] at h
      exact absurd h (by simp)
    | some s =>
      simp only [Pattern.fromGdsStruct, hfind] at h
      obtain ⟨y, hy, hxy⟩ := Option.map_eq_some'.mp h
      cases y with
      | ok rs0 =>
        simp [FlatResult.map] at hxy
        have hsmem : s ∈ lib.structs := List.mem_of_find?_eq_some hfind
        have := flattenElems_nonempty _ (fun n p hp => ih n p hp) layer s.elems
          (hb s hsmem) rs0 hy
        intro r hr
        rw [← hxy] at hr
        exact this r hr
      | err pe => simp [FlatResult.map] at hxy
      | fatal => simp [FlatResult.map] at hxy

/-! ### Transform attributes are ignored -/

theorem flattenElems_sim (rec1 rec2 : String → Option (FlatResult Pattern))
    (hrec : ∀ n, rec1 n = rec2 n) (layer : Int) :
    ∀ es1 es2, simElems es1 es2 = true →
      flattenElems rec1 layer es1 = flattenElems rec2 layer es2 := by
  intro es1
  induction es1 with
  | nil =>
    intro es2 hs
    cases es2 with
    | nil => rfl
    | cons b bs => simp [simElems] at hs
  | cons e1 rest1 ih =>
    intro es2 hs
    cases es2 with
    | nil => simp [simElems] at hs
    | cons e2 rest2 =>
      simp only [simElems, Bool.and_eq_true] at hs
      obtain ⟨hse, hsr⟩ := hs
      have hrest := ih rest2 hsr
      cases e1 <;> cases e2 <;> simp [simElem, simSR] at hse
      case boundary.boundary a b =>
        subst hse
        by_cases hb : a.layer = layer
        · rw [flattenElems_boundary_hit _ _ _ _ hb, flattenElems_boundary_hit _ _ _ _ hb, hrest]
        · rw [flattenElems_boundary_miss _ _ _ _ hb, flattenElems_boundary_miss _ _ _ _ hb, hrest]
      case path.path a b => simp [flattenElems]
      case structRef.structRef a b =>
        obtain ⟨hname, hxy⟩ := hse
        have hcall : rec1 a.name = rec2 b.name := by rw [hname]; exact hrec b.name
        cases hr : rec2 b.name with
        | none =>
          simp [flattenElems, hcall.trans hr, hr]
        | some v =>
          have hr1 : rec1 a.name = some v := hcall.trans hr
          cases v with
          | ok pat =>
            rw [flattenElems_ref_ok _ _ _ _ _ hr1, flattenElems_ref_ok _ _ _ _ _ hr,
              hrest, hxy]
          | err pe =>
            rw [flattenElems_ref_err _ _ _ _ _ hr1, flattenElems_ref_err _ _ _ _ _ hr]
          | fatal =>
            simp [flattenElems, hr1, hr]
      case arrayRef.arrayRef a b => simp [flattenElems]
      case textElem.textElem a b =>
        rw [flattenElems_text, flattenElems_text, hrest]
      case node.node a b => simp [flattenElems]
      case boxElem.boxElem a b => simp [flattenElems]

theorem find_sim (name : String) :
    ∀ l1 l2, simStructList l1 l2 = true →
      (l1.find? (fun s => s.name == name) = none ∧
        l2.find? (fun s => s.name == name) = none) ∨
      (∃ s1 s2, l1.find? (fun s => s.name == name) = some s1 ∧
        l2.find? (fun s => s.name == name) = some s2 ∧ simStruct s1 s2 = true) := by
  intro l1
  induction l1 with
  | nil =>
    intro l2 hs
    cases l2 with
    | nil => left; simp
    | cons b bs => simp [simStructList] at hs
  | cons a as ih =>
    intro l2 hs
    cases l2 with
    | nil => simp [simStructList] at hs
    | cons b bs =>
      simp only [simStructList, Bool.and_eq_true] at hs
      obtain ⟨hab, hasbs⟩ := hs
      have hname : a.name = b.name := by
        have := hab
        simp only [simStruct, Bool.and_eq_true, beq_iff_eq] at this
        exact this.1
      by_cases hme : a.name = name
      · right
        refine ⟨a, b, ?_, ?_, hab⟩
        · simp [List.find?_cons, hme]
        · simp [List.find?_cons, ← hname, hme]
      · have h1 : (a.name == name) = false := by simp [hme]
        have h2 : (b.name == name) = false := by simp [← hname, hme]
        rcases ih bs hasbs with ⟨hn1, hn2⟩ | ⟨s1, s2, hf1, hf2, hsim⟩
        · left
          constructor
          · simp [List.find?_cons, h1, hn1]
          · simp [List.find?_cons, h2, hn2]
        · right
          refine ⟨s1, s2, ?_, ?_, hsim⟩
          · simp [List.find?_cons, h1, hf1]
          · simp [List.find?_cons, h2, hf2]

/-- Flattening reads only the name and offset of a structure reference:
libraries equal up to reference transform attributes flatten equally. -/
theorem fromGdsStruct_sim (l1 l2 : GdsLibrary) (hsim : simLib l1 l2 = true) (layer : Int) :
    ∀ f name, Pattern.fromGdsStruct l1 layer f name = Pattern.fromGdsStruct l2 layer f name := by
  have hstructs : simStructList l1.structs l2.structs = true := by
    simp only [simLib, Bool.and_eq_true] at hsim
    exact hsim.2
  intro f
  induction f with
  | zero => intro name; rfl
  | succ f ih =>
    intro name
    rcases find_sim name l1.structs l2.structs hstructs with
      ⟨hn1, hn2⟩ | ⟨s1, s2, hf1, hf2, hss⟩
    · simp only [Pattern.fromGdsStruct, hn1, hn2]
    · simp only [Pattern.fromGdsStruct, hf1, hf2]
      have helems : simElems s1.elems s2.elems = true := by
        simp only [simStruct, Bool.and_eq_true] at hss
        exact hss.2
      rw [flattenElems_sim _ _ (fun n => ih n) layer s1.elems s2.elems helems]

/-! ### Termination under acyclicity -/

theorem flattenElems_exists_fuel (lib : GdsLibrary) (layer : Int) :
    ∀ es : List GdsElement,
      (∀ sr, GdsElement.structRef sr ∈ es →
        ∃ f, (Pattern.fromGdsStruct lib layer f sr.name).isSome) →
      ∃ f, (flattenElems (fun n => Pattern.fromGdsStruct lib layer f n) layer es).isSome := by
  intro es
  induction es with
  | nil => intro _; exact ⟨0, by simp [flattenElems]⟩
  | cons e rest ih =>
    intro hrefs
    have hrest := ih (fun sr hsr => hrefs sr (by simp [hsr]))
    cases e with
    | boundary b =>
      obtain ⟨f, hf⟩ := hrest
      refine ⟨f, ?_⟩
      by_cases hb : b.layer = layer
      · rw [flattenElems_boundary_hit _ _ _ _ hb]
        simpa using hf
      · rw [flattenElems_boundary_miss _ _ _ _ hb]
        exact hf
    | structRef sr =>
      obtain ⟨f1, h1⟩ := hrefs sr (by simp)
      obtain ⟨f2, h2⟩ := hrest
      obtain ⟨r1, hr1⟩ := Option.isSome_iff_exists.mp h1
      obtain ⟨x2, hx2⟩ := Option.isSome_iff_exists.mp h2
      refine ⟨max f1 f2, ?_⟩
      have hr1' : Pattern.fromGdsStruct lib layer (max f1 f2) sr.name = some r1 :=
        fromGdsStruct_mono lib layer f1 (max f1 f2) (le_max_left _ _) sr.name r1 hr1
      have hx2' : flattenElems (fun n => Pattern.fromGdsStruct lib layer (max f1 f2) n)
          layer rest = some x2 := by
        refine flattenElems_mono _ _ ?_ layer rest x2 hx2
        intro n r0 h0
        exact fromGdsStruct_mono lib layer f2 (max f1 f2) (le_max_right _ _) n r0 h0
      cases r1 with
      | ok pat =>
        rw [flattenElems_ref_ok _ _ _ _ _ hr1', hx2']
        simp
      | err pe =>
        rw [flattenElems_ref_err _ _ _ _ _ hr1']
        simp
      | fatal =>
        simp [flattenElems, hr1']
    | textElem t =>
      obtain ⟨f, hf⟩ := hrest
      exact ⟨f, by rw [flattenElems_text]; exact hf⟩
    | path p => exact ⟨0, by simp [flattenElems]⟩
    | arrayRef a => exact ⟨0, by simp [flattenElems]⟩
    | node n => exact ⟨0, by simp [flattenElems]⟩
    | boxElem bx => exact ⟨0, by simp [flattenElems]⟩

/-- When the structure-reference graph is acyclic, some fuel suffices for
any requested name: the recursion terminates. -/
theorem fromGdsStruct_terminates (lib : GdsLibrary) (layer : Int)
    (hwf : WellFounded (fun m n => Refs lib n m)) :
    ∀ name, ∃ f, (Pattern.fromGdsStruct lib layer f name).isSome := by
  intro name
  induction name using hwf.induction with
  | _ name ih =>
    cases hfind : lib.structs.find? (fun s => s.name == name) with
    | none =>
      refine ⟨1, ?_⟩
      simp [Pattern.fromGdsStruct, hfind]
    | some s =>
      have hrefs : ∀ sr, GdsElement.structRef sr ∈ s.elems →
          ∃ f, (Pattern.fromGdsStruct lib layer f sr.name).isSome := by
        intro sr hsr
        exact ih sr.name ⟨s, hfind, sr, hsr, rfl⟩
      obtain ⟨f, hf⟩ := flattenElems_exists_fuel lib layer s.elems hrefs
      refine ⟨f + 1, ?_⟩
      simp only [Pattern.fromGdsStruct, hfind]
      simpa using hf

/-- On the self-referential library, flattening `"A"` exhausts any fuel:
the unbounded Rust recursion never returns. -/
theorem cycLib_diverges : ∀ f, Pattern.fromGdsStruct cycLib 1 f "A" = none := by
  intro f
  induction f with
  | zero => rfl
  | succ f ih =>
    have hfind : cycLib.structs.find? (fun s => s.name == "A") =
        some ⟨"A", [.structRef ⟨"A", ⟨0, 0⟩, none⟩]⟩ := by decide
    simp only [Pattern.fromGdsStruct, hfind]
    simp [flattenElems, ih]

/-! ### Claims -/

/-- C1: flattening a structure whose elements are all Boundary elements on
the requested layer (no references) yields one Region per boundary, in
element order, each Region's point sequence being the boundary's vertex
sequence verbatim (no deduplication, no closing-point insertion). -/
theorem claim_c1 (lib : GdsLibrary) (layer : Int) (name : String) (s : GdsStruct)
    (f : Nat) (bs : List GdsBoundary)
    (hfind : lib.structs.find? (fun t => t.name == name) = some s)
    (helems : s.elems = bs.map GdsElement.boundary)
    (hlayers : ∀ b ∈ bs, b.layer = layer) :
    Pattern.fromGdsStruct lib layer (f + 1) name =
      some (.ok ⟨bs.map regionOfBoundary⟩) ∧
    (bs.map regionOfBoundary).length = bs.length ∧
    ∀ b ∈ bs, (regionOfBoundary b).points = b.xy.map Point.ofGds := by
  refine ⟨?_, by simp, fun b _ => rfl⟩
  simp only [Pattern.fromGdsStruct, hfind, helems]
  rw [flattenElems_boundaries _ layer bs hlayers]
  rfl

/-- Witness for C1 on the concrete library `wLib`. -/
theorem claim_c1_witness :
    Pattern.fromGdsStruct wLib 1 1 "A" =
      some (.ok ⟨[wBoundaryA].map regionOfBoundary⟩) ∧
    ([wBoundaryA].map regionOfBoundary).length = [wBoundaryA].length ∧
    ∀ b ∈ [wBoundaryA], (regionOfBoundary b).points = b.xy.map Point.ofGds :=
  claim_c1 wLib 1 "A" wStructA 0 [wBoundaryA] (by decide) (by decide) (by decide)

/-- C2: a StructRef whose referenced structure flattens to a Pattern `pat`
contributes exactly `pat`'s regions with every point translated by the
reference offset, appended before the remaining elements' regions; and
translation offsets compose additively, so a point of the innermost
boundary ends up at `p + inner + outer`. -/
theorem claim_c2 (lib : GdsLibrary) (layer : Int) (f : Nat) (sr : GdsStructRef)
    (pat : Pattern) (rest : List GdsElement) (rs : List Region) (d1 d2 : Point) (p : Point)
    (href : Pattern.fromGdsStruct lib layer f sr.name = some (.ok pat))
    (hrest : flattenElems (fun n => Pattern.fromGdsStruct lib layer f n) layer rest =
      some (.ok rs)) :
    flattenElems (fun n => Pattern.fromGdsStruct lib layer f n) layer
        (.structRef sr :: rest) =
      some (.ok ((pat + Point.ofGds sr.xy).regions ++ rs)) ∧
    (pat + Point.ofGds sr.xy).regions =
      pat.regions.map (fun r => Region.mk (r.points.map (fun q => q + Point.ofGds sr.xy))) ∧
    pat + d1 + d2 = pat + (d1 + d2) ∧
    p + d1 + d2 = p + (d1 + d2) := by
  refine ⟨?_, rfl, Pattern.add_add pat d1 d2, Point.add_assoc p d1 d2⟩
  rw [flattenElems_ref_ok _ _ _ _ _ href, hrest]
  rfl

/-- Witness for C2: the reference to `"A"` at offset (2000, 0) in `wLib`. -/
theorem claim_c2_witness :
    flattenElems (fun n => Pattern.fromGdsStruct wLib 1 1 n) 1
        [.structRef ⟨"A", ⟨2000, 0⟩, none⟩] =
      some (.ok ((Pattern.mk [⟨[⟨0, 0⟩, ⟨1000, 0⟩, ⟨1000, 1000⟩, ⟨0, 1000⟩]⟩] +
        Point.ofGds ⟨2000, 0⟩).regions ++ [])) ∧
    (Pattern.mk [⟨[⟨0, 0⟩, ⟨1000, 0⟩, ⟨1000, 1000⟩, ⟨0, 1000⟩]⟩] +
        Point.ofGds ⟨2000, 0⟩).regions =
      (Pattern.mk [⟨[⟨0, 0⟩, ⟨1000, 0⟩, ⟨1000, 1000⟩, ⟨0, 1000⟩]⟩]).regions.map
        (fun r => Region.mk (r.points.map (fun q => q + Point.ofGds ⟨2000, 0⟩))) ∧
    Pattern.mk [⟨[⟨0, 0⟩, ⟨1000, 0⟩, ⟨1000, 1000⟩, ⟨0, 1000⟩]⟩] + Point.mk 1 2 + Point.mk 3 4 =
      Pattern.mk [⟨[⟨0, 0⟩, ⟨1000, 0⟩, ⟨1000, 1000⟩, ⟨0, 1000⟩]⟩] + (Point.mk 1 2 + Point.mk 3 4) ∧
    Point.mk 5 6 + Point.mk 1 2 + Point.mk 3 4 = Point.mk 5 6 + (Point.mk 1 2 + Point.mk 3 4) :=
  claim_c2 wLib 1 1 ⟨"A", ⟨2000, 0⟩, none⟩
    (Pattern.mk [⟨[⟨0, 0⟩, ⟨1000, 0⟩, ⟨1000, 1000⟩, ⟨0, 1000⟩]⟩]) [] []
    (Point.mk 1 2) (Point.mk 3 4) (Point.mk 5 6) (by decide) (by decide)

/-- C3: a boundary contributes its Region exactly when the query layer
equals its layer number; switching the query to any other layer removes
that Region and only that Region, provided the other elements' own
contributions are unchanged between the two queries (the structure itself
held fixed). -/
theorem claim_c3 (lib : GdsLibrary) (f : Nat) (b : GdsBoundary) (L L' : Int)
    (rec0 : String → Option (FlatResult Pattern)) (L0 : Int)
    (pre post : List GdsElement) (rs ps : List Region)
    (hL : b.layer = L) (hL' : L' ≠ L)
    (hpre : flattenElems (fun n => Pattern.fromGdsStruct lib L f n) L pre = some (.ok rs))
    (hpre' : flattenElems (fun n => Pattern.fromGdsStruct lib L' f n) L' pre = some (.ok rs))
    (hpost : flattenElems (fun n => Pattern.fromGdsStruct lib L f n) L post = some (.ok ps))
    (hpost' : flattenElems (fun n => Pattern.fromGdsStruct lib L' f n) L' post =
      some (.ok ps)) :
    flattenElems rec0 L0 [.boundary b] =
      some (.ok (if b.layer = L0 then [regionOfBoundary b] else [])) ∧
    flattenElems (fun n => Pattern.fromGdsStruct lib L f n) L (pre ++ .boundary b :: post) =
      some (.ok (rs ++ regionOfBoundary b :: ps)) ∧
    flattenElems (fun n => Pattern.fromGdsStruct lib L' f n) L'
        (pre ++ .boundary b :: post) =
      some (.ok (rs ++ ps)) := by
  have hbL' : b.layer ≠ L' := fun hc => hL' (hc ▸ hL : L' = L)
  refine ⟨?_, ?_, ?_⟩
  · by_cases hb : b.layer = L0
    · rw [flattenElems_boundary_hit _ _ _ _ hb, flattenElems_nil, if_pos hb]
      rfl
    · rw [flattenElems_boundary_miss _ _ _ _ hb, flattenElems_nil, if_neg hb]
  · rw [flattenElems_append _ _ _ _ _ hpre, flattenElems_boundary_hit _ _ _ _ hL, hpost]
    rfl
  · rw [flattenElems_append _ _ _ _ _ hpre', flattenElems_boundary_miss _ _ _ _ hbL', hpost']
    rfl

/-- Witness for C3 on `wBoundaryA` with query layers 1 and 2. -/
theorem claim_c3_witness :
    flattenElems (fun _ => none) 1 [.boundary wBoundaryA] =
      some (.ok (if wBoundaryA.layer = 1 then [regionOfBoundary wBoundaryA] else [])) ∧
    flattenElems (fun n => Pattern.fromGdsStruct wLib 1 0 n) 1
        ([] ++ .boundary wBoundaryA :: []) = some (.ok ([] ++ regionOfBoundary wBoundaryA :: [])) ∧
    flattenElems (fun n => Pattern.fromGdsStruct wLib 2 0 n) 2
        ([] ++ .boundary wBoundaryA :: []) = some (.ok ([] ++ [])) :=
  claim_c3 wLib 0 wBoundaryA 1 2 (fun _ => none) 1 [] [] [] []
    (by decide) (by decide) (by decide) (by decide) (by decide) (by decide)

/-- C4: for a Pattern of non-empty regions whose coordinates all convert,
emission produces exactly: the 6.6 coordinate-format directive, the
millimeters unit directive, region-mode-on, then per region one move to
the first point followed by one interpolate for every point including the
first, then region-mode-off and end-of-file; no closing segment is
emitted. -/
theorem claim_c4 (pat : Pattern) (lib : GdsLibrary) (cf : Point → Int × Int)
    (hne : ∀ r ∈ pat.regions, r.points ≠ [])
    (hc : ∀ r ∈ pat.regions, ∀ p ∈ r.points, coordPair lib p = some (cf p)) :
    pat.write_gerber lib =
      some ([.coordinateFormat 6 6, .unitMillimeters, .regionMode true]
        ++ (pat.regions.map (fun r =>
              GerberCmd.move (cf r.points.headI).1 (cf r.points.headI).2 ::
                r.points.map (fun p => GerberCmd.interpolate (cf p).1 (cf p).2))).flatten
        ++ [.regionMode false, .endOfFile]) :=
  Pattern.write_gerber_eq pat lib cf hne hc

/-- Witness for C4: a two-point region emitted against `wLib`. -/
theorem claim_c4_witness :
    (Pattern.mk [⟨[⟨2000, 0⟩, ⟨3000, 0⟩]⟩]).write_gerber wLib =
      some ([.coordinateFormat 6 6, .unitMillimeters, .regionMode true]
        ++ ((Pattern.mk [⟨[⟨2000, 0⟩, ⟨3000, 0⟩]⟩]).regions.map (fun r =>
              GerberCmd.move ((fun p : Point => (1000 * p.x, 1000 * p.y)) r.points.headI).1
                  ((fun p : Point => (1000 * p.x, 1000 * p.y)) r.points.headI).2 ::
                r.points.map (fun p => GerberCmd.interpolate
                  ((fun p : Point => (1000 * p.x, 1000 * p.y)) p).1
                  ((fun p : Point => (1000 * p.x, 1000 * p.y)) p).2))).flatten
        ++ [.regionMode false, .endOfFile]) :=
  claim_c4 (Pattern.mk [⟨[⟨2000, 0⟩, ⟨3000, 0⟩]⟩]) wLib
    (fun p => (1000 * p.x, 1000 * p.y))
    (by decide)
    (by
      intro r hr p hp
      simp only [List.mem_singleton] at hr
      subst hr
      simp only [List.mem_cons, List.not_mem_nil, or_false] at hp
      rcases hp with hp | hp <;> subst hp <;>
        norm_num [coordPair, coord_from_gds, CoordinateNumber.tryFromRat,
          GdsUnits.db_unit, wLib, wUnits])

/-- C5: the coordinate transformer computes `v * db_unit * 1000`
millimeters and converts it exactly to the 6.6 fixed-point representation
(scaled by 10^6); when that value is not exactly representable within the
digit budget the conversion fails hard instead of truncating or
rounding. -/
theorem claim_c5 (v : Int) (lib : GdsLibrary) :
    ((((v : Rat) * lib.units.db_unit * 1000 * 1000000).den = 1 ∧
        ((v : Rat) * lib.units.db_unit * 1000 * 1000000).num.natAbs < 10 ^ 12) →
      coord_from_gds v lib =
        some ((v : Rat) * lib.units.db_unit * 1000 * 1000000).num) ∧
    (¬(((v : Rat) * lib.units.db_unit * 1000 * 1000000).den = 1 ∧
        ((v : Rat) * lib.units.db_unit * 1000 * 1000000).num.natAbs < 10 ^ 12) →
      coord_from_gds v lib = none) := by
  constructor <;> intro h <;>
    simp only [coord_from_gds, CoordinateNumber.tryFromRat, if_pos, if_neg, h] <;>
    simp [h]

/-- Witness for C5: 2000 database units at 1e-6 meters per unit is
exactly 2 mm, i.e. fixed-point 2000000. -/
theorem claim_c5_witness :
    (((2000 : Int) : Rat) * wLib.units.db_unit * 1000 * 1000000).den = 1 ∧
    (((2000 : Int) : Rat) * wLib.units.db_unit * 1000 * 1000000).num.natAbs < 10 ^ 12 ∧
    coord_from_gds 2000 wLib = some 2000000 := by
  have hval : ((2000 : Int) : Rat) * wLib.units.db_unit * 1000 * 1000000 = 2000000 := by
    norm_num [wLib, wUnits, GdsUnits.db_unit]
  have hden : (((2000 : Int) : Rat) * wLib.units.db_unit * 1000 * 1000000).den = 1 := by
    rw [hval]; rfl
  have hnum : (((2000 : Int) : Rat) * wLib.units.db_unit * 1000 * 1000000).num = 2000000 := by
    rw [hval]; rfl
  have hlt : (((2000 : Int) : Rat) * wLib.units.db_unit * 1000 * 1000000).num.natAbs
      < 10 ^ 12 := by
    rw [hnum]; norm_num
  refine ⟨hden, hlt, ?_⟩
  have := (claim_c5 2000 wLib).1 ⟨hden, hlt⟩
  rw [this, hnum]

/-- C6: a structure name absent from the library yields the recoverable
`PatternDoesNotExist` error, both when requested at top level and when
reached through a StructRef during recursion, with no partial Pattern
attached to the result. -/
theorem claim_c6 (lib : GdsLibrary) (layer : Int) (f f' : Nat) (name : String)
    (sr : GdsStructRef) (rest : List GdsElement)
    (h1 : lib.structs.find? (fun s => s.name == name) = none)
    (h2 : lib.structs.find? (fun s => s.name == sr.name) = none) :
    Pattern.fromGdsStruct lib layer (f + 1) name =
      some (.err .patternDoesNotExist) ∧
    flattenElems (fun n => Pattern.fromGdsStruct lib layer (f' + 1) n) layer
        (.structRef sr :: rest) = some (.err .patternDoesNotExist) := by
  constructor
  · simp only [Pattern.fromGdsStruct, h1]
  · have hr : Pattern.fromGdsStruct lib layer (f' + 1) sr.name =
        some (.err .patternDoesNotExist) := by
      simp only [Pattern.fromGdsStruct, h2]
    exact flattenElems_ref_err _ _ _ _ _ hr

/-- Witness for C6: the name `"C"` is absent from `wLib`. -/
theorem claim_c6_witness :
    Pattern.fromGdsStruct wLib 1 1 "C" = some (.err .patternDoesNotExist) ∧
    flattenElems (fun n => Pattern.fromGdsStruct wLib 1 1 n) 1
        [.structRef ⟨"C", ⟨0, 0⟩, none⟩, .boundary wBoundaryA] =
      some (.err .patternDoesNotExist) :=
  claim_c6 wLib 1 0 0 "C" ⟨"C", ⟨0, 0⟩, none⟩ [.boundary wBoundaryA]
    (by decide) (by decide)

/-- C7: Text elements are skipped with no contribution and no error,
while every other unimplemented element kind (path, array reference,
node, box) makes flattening fail fatally — an outcome distinct both from
a recoverable error and from success. -/
theorem claim_c7 (rec : String → Option (FlatResult Pattern)) (layer : Int)
    (t : GdsTextElem) (p : GdsPath) (a : GdsArrayRef) (nd : GdsNode) (bx : GdsBox)
    (rest : List GdsElement) :
    flattenElems rec layer (.textElem t :: rest) = flattenElems rec layer rest ∧
    flattenElems rec layer (.path p :: rest) = some .fatal ∧
    flattenElems rec layer (.arrayRef a :: rest) = some .fatal ∧
    flattenElems rec layer (.node nd :: rest) = some .fatal ∧
    flattenElems rec layer (.boxElem bx :: rest) = some .fatal ∧
    (∀ pe : PatternError, (FlatResult.fatal : FlatResult (List Region)) ≠ .err pe) ∧
    (∀ rs : List Region, (FlatResult.fatal : FlatResult (List Region)) ≠ .ok rs) := by
  refine ⟨flattenElems_text rec layer t rest, rfl, rfl, rfl, rfl, ?_, ?_⟩
  · intro pe hc
    cases hc
  · intro rs hc
    cases hc

/-- C8: when every boundary in the library has a non-empty vertex list,
every region of a flattened Pattern is non-empty, so the emitter's access
to each region's first point is safe: whenever all coordinates convert,
emission succeeds. -/
theorem claim_c8 (lib : GdsLibrary) (layer : Int) (f : Nat) (name : String) (pat : Pattern)
    (h : Pattern.fromGdsStruct lib layer f name = some (.ok pat))
    (hb : ∀ s ∈ lib.structs, ∀ e ∈ s.elems, boundaryNonempty e = true) :
    (∀ r ∈ pat.regions, r.points ≠ []) ∧
    ((∀ r ∈ pat.regions, ∀ p ∈ r.points, (coordPair lib p).isSome) →
      (pat.write_gerber lib).isSome) := by
  have hb' : ∀ s ∈ lib.structs, ∀ e ∈ s.elems, ∀ b, e = GdsElement.boundary b →
      b.xy ≠ [] := by
    intro s hs e he b heq
    have := hb s hs e he
    subst heq
    simpa [boundaryNonempty, List.isEmpty_iff] using this
  have hne := fromGdsStruct_nonempty lib layer hb' f name pat h
  refine ⟨hne, ?_⟩
  intro hc
  have := Pattern.write_gerber_eq pat lib (fun p => (coordPair lib p).get!) hne ?_
  · rw [this]
    rfl
  · intro r hr p hp
    obtain ⟨c, hcp⟩ := Option.isSome_iff_exists.mp (hc r hr p hp)
    rw [hcp]
    simp [Option.get!, hcp]

/-- Witness for C8: flattening `"B"` in `wLib` and emitting it. -/
theorem claim_c8_witness :
    (∀ r ∈ (Pattern.mk [⟨[⟨2000, 0⟩, ⟨3000, 0⟩, ⟨3000, 1000⟩, ⟨2000, 1000⟩]⟩]).regions,
      r.points ≠ []) ∧
    ((∀ r ∈ (Pattern.mk [⟨[⟨2000, 0⟩, ⟨3000, 0⟩, ⟨3000, 1000⟩, ⟨2000, 1000⟩]⟩]).regions,
        ∀ p ∈ r.points, (coordPair wLib p).isSome) →
      ((Pattern.mk
        [⟨[⟨2000, 0⟩, ⟨3000, 0⟩, ⟨3000, 1000⟩, ⟨2000, 1000⟩]⟩]).write_gerber wLib).isSome) :=
  claim_c8 wLib 1 2 "B" (Pattern.mk [⟨[⟨2000, 0⟩, ⟨3000, 0⟩, ⟨3000, 1000⟩, ⟨2000, 1000⟩]⟩])
    (by decide) (by decide)

/-- C9: if the library's structure-reference graph is acyclic
(well-founded), flattening any structure name terminates — some fuel
returns a result; and on a concrete self-referential library the
recursion exhausts every fuel bound, so the guarantee needs the
acyclicity precondition. -/
theorem claim_c9 (lib : GdsLibrary) (layer : Int)
    (hwf : WellFounded (fun m n => Refs lib n m)) :
    (∀ name, ∃ f, (Pattern.fromGdsStruct lib layer f name).isSome) ∧
    (∀ f, Pattern.fromGdsStruct cycLib 1 f "A" = none) :=
  ⟨fromGdsStruct_terminates lib layer hwf, cycLib_diverges⟩

/-- Witness for C9: `wLib` (references only `"B" → "A"`) is acyclic. -/
theorem claim_c9_witness :
    (∀ name, ∃ f, (Pattern.fromGdsStruct wLib 1 f name).isSome) ∧
    (∀ f, Pattern.fromGdsStruct cycLib 1 f "A" = none) := by
  refine claim_c9 wLib 1 ?_
  have hA : Acc (fun m n => Refs wLib n m) "A" := by
    constructor
    intro k hk
    obtain ⟨s, hs, sr, hsr, _⟩ := hk
    have hfA : wLib.structs.find? (fun t => t.name == "A") = some wStructA := by decide
    rw [hfA] at hs
    cases hs
    simp [wStructA] at hsr
  constructor
  intro n
  constructor
  intro m hm
  obtain ⟨s, hs, sr, hsr, hname⟩ := hm
  have hsmem : s ∈ wLib.structs := List.mem_of_find?_eq_some hs
  have : s = wStructA ∨ s = wStructB := by simpa [wLib] using hsmem
  rcases this with rfl | rfl
  · simp [wStructA] at hsr
  · have : sr = ⟨"A", ⟨2000, 0⟩, none⟩ := by simpa [wStructB] using hsr
    subst this
    subst hname
    exact hA

/-- C10: flattening reads a StructRef only through its referenced name
and its (x, y) offset: two libraries identical except for reference
transform attributes (rotation, magnification, reflection) flatten to
equal Patterns for every fuel, layer and structure name — the attributes
are silently ignored. -/
theorem claim_c10 (l1 l2 : GdsLibrary) (hsim : simLib l1 l2 = true)
    (f : Nat) (layer : Int) (name : String) :
    Pattern.fromGdsStruct l1 layer f name = Pattern.fromGdsStruct l2 layer f name :=
  fromGdsStruct_sim l1 l2 hsim layer f name

/-- Witness for C10: `wLib` and `wLibStrans` differ only in the
reference's transform attributes. -/
theorem claim_c10_witness :
    Pattern.fromGdsStruct wLib 1 2 "B" = Pattern.fromGdsStruct wLibStrans 1 2 "B" :=
  claim_c10 wLib wLibStrans
    (by simp [simLib, simStructList, simStruct, simElems, simElem, simSR,
      wLib, wLibStrans, wStructA, wStructB]) 2 1 "B"
